import Mathlib

/-!
Verification of the PENTrack trajectory-integration and geometry core.

The definitions below are shallow embeddings of the C++ sources:
`TParticle::Integrate` and `TParticle::CheckHit` (particle.h) and the
`TGeometry` / `material` input handling (src/geometry.cpp).  Real-valued
quantities (C++ `long double` / `double`) are modelled as rationals.
External collaborators that the core reaches only through an interface —
the Runge-Kutta stepper's dense output, the species-specific virtual
`OnHit` / `OnStep` hooks, the triangle-mesh ray oracle and the recursive
self-call of `CheckHit` — are modelled as explicit function parameters,
so the theorems quantify over every possible behaviour of those
collaborators.
-/

/-- Position-and-velocity state vector y[0..5] of TParticle (particle.h):
positions y[0..2], velocities y[3..5]. -/
structure Vec6 where
  px : ℚ
  py : ℚ
  pz : ℚ
  vx : ℚ
  vy : ℚ
  vz : ℚ
  deriving DecidableEq

/-- Surface normal vector (TCollision::normal). -/
abbrev Vec3 := ℚ × ℚ × ℚ

/-- MAX_SAMPLE_DIST, particle.h line 14: max spatial distance of reflection
checks; longer integration steps are interpolated. -/
def MAX_SAMPLE_DIST : ℚ := 1/100

/-- Squared Euclidean distance between the position parts of two state
vectors (the source compares pow(y2[i]-y1[i],2) sums under a sqrt; we stay
with squares to remain in the rationals). -/
def posDistSq (a b : Vec6) : ℚ :=
  (b.px - a.px) * (b.px - a.px) + (b.py - a.py) * (b.py - a.py) +
    (b.pz - a.pz) * (b.pz - a.pz)

/-- Squared speed of a state vector; the source's v1 is its square root. -/
def speedSq (y : Vec6) : ℚ := y.vx * y.vx + y.vy * y.vy + y.vz * y.vz

/-- One resampling step of TParticle::Integrate (particle.h lines 241-252):
x2 = x1 + MAX_SAMPLE_DIST/v1; if x2 >= x (the accepted step's end) the
sub-interval is clamped to (x, y); otherwise the endpoint comes from the
stepper's dense output.  v1 is the speed sqrt(speedSq y1) at the
sub-interval start, passed explicitly because square roots leave the
rationals; theorems tie it to y1 by the hypothesis v1 * v1 = speedSq y1. -/
def nextSample (v1 x1 xstep : ℚ) (ystep : Vec6) (dense : ℚ → Vec6) : ℚ × Vec6 :=
  let x2 := x1 + MAX_SAMPLE_DIST / v1
  if xstep ≤ x2 then (xstep, ystep) else (x2, dense x2)

/-- Hmax accumulation of TParticle::Integrate: Hmax starts at Hstart
(particle.h line 535, InitV) and after every emitted sub-interval becomes
max(Ekin + Epot, Hmax) (particle.h line 264); hs is the list of sampled
total energies in emission order. -/
def hmaxAfter (hstart : ℚ) (hs : List ℚ) : ℚ :=
  hs.foldl (fun acc h => max h acc) hstart

/-- Localised-crossing criterion of TParticle::CheckHit (particle.h lines
609-612): (colls.size() == 1 && coll.s*abs(distnormal) < REFLECT_TOLERANCE
&& (1 - coll.s)*abs(distnormal) < REFLECT_TOLERANCE) || iteration > 99.
tol stands for REFLECT_TOLERANCE, whose numeric value lives in globals.h
(outside this tree); every theorem quantifies over it. -/
def isLocalized (tol : ℚ) (nColls : ℕ) (s dn : ℚ) (iter : ℕ) : Bool :=
  (nColls == 1 && decide (s * |dn| < tol) && decide ((1 - s) * |dn| < tol))
    || decide (99 < iter)

/-- Modelled from the spec: the spec's localised-case criterion (section
4.5.1) — both tolerance conditions, or iteration beyond 99 — with no
condition on the number of collision records.  Stated only to compare the
spec's criterion with the source's `isLocalized`. -/
def isLocalizedSpec (tol : ℚ) (s dn : ℚ) (iter : ℕ) : Bool :=
  (decide (s * |dn| < tol) && decide ((1 - s) * |dn| < tol)) || decide (99 < iter)

/-- Collision record (TCollision): parametric hit coordinate s along the
segment, ID of the hit solid, outward surface normal. -/
structure TCollision where
  s : ℚ
  cid : ℕ
  normal : Vec3
  deriving DecidableEq

/-- TGeometry::GetCollisions (src/geometry.cpp lines 109-121): every raw
mesh record obtains an ignored tag — true iff the interpolated hit time
t = x1 + (x2 - x1)*s satisfies t >= a && t < b for some ignore interval
(a, b) of the hit solid — and the function returns !colls.empty().
ignoreOf maps a solid ID to its ignoretimes list (the mesh and solid
table are external to this function). -/
def GetCollisions (x1 x2 : ℚ) (ignoreOf : ℕ → List (ℚ × ℚ))
    (cs : List TCollision) : List (TCollision × Bool) × Bool :=
  let colls := cs.map (fun c =>
    let t := x1 + (x2 - x1) * c.s
    (c, (ignoreOf c.cid).any (fun p => decide (p.1 ≤ t) && decide (t < p.2))))
  (colls, !colls.isEmpty)

/-- Membership skeleton of TGeometry::GetSolids (src/geometry.cpp lines
124-140): the result list is seeded with the default solid (ID 1,
src/geometry.cpp line 94) and then, for every collision of the downward
ray, the hit solid ID is removed if already present and appended
otherwise (ray-crossing parity). -/
def GetSolids (records : List ℕ) : List ℕ :=
  records.foldl (fun acc i => if i ∈ acc then acc.erase i else acc ++ [i]) [1]

/-- The duplicate-ID check of TGeometry::TGeometry (src/geometry.cpp line
104): std::unique(solids.begin(), solids.end(), equal-ID) != solids.end()
on the unsorted solids list, which holds iff some ADJACENT pair of solids
has equal IDs. -/
def adjacentDupCheck (ids : List ℕ) : Bool :=
  (ids.zip ids.tail).any fun p => p.1 == p.2

/-- Material parameter bundle (the eight numeric fields read by
operator>>(istream, material), src/geometry.cpp lines 10-19). -/
structure material where
  FermiReal : ℚ
  FermiImag : ℚ
  DiffProb : ℚ
  SpinflipProb : ℚ
  RMSRoughness : ℚ
  CorrelLength : ℚ
  LossPerBounce : ℚ
  MFPElastic : ℚ
  deriving DecidableEq

/-- The two failure modes of operator>>(istream, material): the stream
failed to parse one of the eight numbers, or both reflection models are
configured at once. -/
inductive MatError where
  | parseFail
  | bothModels
  deriving DecidableEq

/-- operator>>(std::istream, material) (src/geometry.cpp lines 10-19):
reads eight numbers (a failed extraction is a none), throws if the stream
failed, then throws if DiffProb != 0 and RMSRoughness != 0 or
CorrelLength != 0. -/
def readMaterial (fr fi dp sp rms cl lpb mfp : Option ℚ) :
    Except MatError material :=
  match fr, fi, dp, sp, rms, cl, lpb, mfp with
  | some a, some b, some c, some d, some e, some f, some g, some h =>
    if c ≠ 0 ∧ (e ≠ 0 ∨ f ≠ 0) then Except.error MatError.bothModels
    else Except.ok ⟨a, b, c, d, e, f, g, h⟩
  | _, _, _, _, _, _, _, _ => Except.error MatError.parseFail

/-- Numerical-error fate.  Modelled from the spec: ID_NRERROR is defined
in globals.h (not in this tree); spec section 7 fixes the numerical-error
status to -3. -/
def ID_NRERROR : Int := -3

/-- Result of the virtual OnHit hook (particle.h line 750): the returned
Bool is resetintegration; x2, y2 are the segment end passed by reference
(the hook may truncate the segment); entering is the solid pointer passed
by reference (the hook may redirect it), modelled by its ID. -/
structure OnHitRes where
  reset : Bool
  x2 : ℚ
  y2 : Vec6
  entering : ℕ
  deriving DecidableEq

/-- Result of the virtual OnStep hook (particle.h line 766): absorbed is
the returned Bool; x2, y2 are the by-reference segment end. -/
structure OnStepRes where
  absorbed : Bool
  x2 : ℚ
  y2 : Vec6
  deriving DecidableEq

/-- Type of the species-specific OnHit hook:
arguments x1 y1 x2 y2 normal leavingID enteringID. -/
abbrev OnHitFn := ℚ → Vec6 → ℚ → Vec6 → Vec3 → ℕ → ℕ → OnHitRes

/-- Type of the species-specific OnStep hook:
arguments x1 y1 x2 y2 currentsolidID. -/
abbrev OnStepFn := ℚ → Vec6 → ℚ → Vec6 → ℕ → OnStepRes

/-- distnormal of CheckHit (particle.h lines 607-608): (y2 - y1) · normal. -/
def distnormal (y1 y2 : Vec6) (n : Vec3) : ℚ :=
  (y2.px - y1.px) * n.1 + (y2.py - y1.py) * n.2.1 + (y2.pz - y1.pz) * n.2.2

/-- Highest solid ID in the current-solid set, currentsolids.rbegin().
Modelled from the spec: std::set<solid> iterates in increasing ID order
(solid::operator< lives in geometry.h, outside this tree; spec section 3
orders the current-solid set by ID), so rbegin() is the largest ID. -/
def topSolid (solids : List ℕ) : ℕ := solids.foldr max 0

/-- Second-highest solid ID, ++currentsolids.rbegin(). -/
def secondSolid (solids : List ℕ) : ℕ :=
  (solids.erase (topSolid solids)).foldr max 0

/-- Outcome of the localised-crossing branch of TParticle::CheckHit: the
returned Bool, the by-reference segment end (x2, y2), the updated
current-solid set, the particle fate ID assigned by the branch (0 when
untouched), and whether the OnHit hook was invoked. -/
structure HitOutcome where
  ret : Bool
  x2 : ℚ
  y2 : Vec6
  solids : List ℕ
  fate : Int
  hitCalled : Bool
  deriving DecidableEq

/-- The error exit used throughout the localised branch: x2 = x1,
y2 = y1, ID = ID_NRERROR, return true, current-solid set untouched. -/
def errOutcome (x1 : ℚ) (y1 : Vec6) (solids : List ℕ) : HitOutcome :=
  { ret := true, x2 := x1, y2 := y1, solids := solids, fate := ID_NRERROR,
    hitCalled := false }

/-- Shared tail of the localised branch (particle.h lines 680-686): if
resetintegration return true; else run OnStep on the (possibly truncated)
segment against the highest-ID solid of the updated set and return its
verdict. -/
def finishStep (onStep : OnStepFn) (x1 : ℚ) (y1 : Vec6) (x2 : ℚ) (y2 : Vec6)
    (solids : List ℕ) (reset hit : Bool) : HitOutcome :=
  if reset then
    { ret := true, x2 := x2, y2 := y2, solids := solids, fate := 0,
      hitCalled := hit }
  else
    let r := onStep x1 y1 x2 y2 (topSolid solids)
    { ret := r.absorbed, x2 := r.x2, y2 := r.y2, solids := solids, fate := 0,
      hitCalled := hit }

/-- Two-surface test of the localised branch (particle.h line 615):
colls.size() > 1 and the second record's ID differs from the first's. -/
def twoSurfaces (c : TCollision) (rest : List TCollision) : Bool :=
  match rest with
  | [] => false
  | c2 :: _ => c.cid != c2.cid

/-- Localised-crossing branch of TParticle::CheckHit (particle.h lines
614-686).  c is the first collision record, rest the remaining records of
the ordered set, solids the current-solid set (as IDs).  Faithful to the
source: the two-surface check errors out first; distnormal < 0 is entry
(error if the hit solid is already present; OnHit and the insertion
happen only under entering->ID > leaving->ID), distnormal > 0 is exit
(error if the hit solid is absent; OnHit and the erasure happen only when
the left solid has the highest ID), distnormal = 0 is the parallel-track
error.  The source guards insert/erase with the pointer comparison
entering != leaving, where entering may have been redirected by OnHit;
with unique solid IDs this is ID inequality. -/
def CheckHitLocalized (onHit : OnHitFn) (onStep : OnStepFn) (x1 : ℚ)
    (y1 : Vec6) (x2 : ℚ) (y2 : Vec6) (c : TCollision) (rest : List TCollision)
    (solids : List ℕ) : HitOutcome :=
  if twoSurfaces c rest then errOutcome x1 y1 solids
  else if distnormal y1 y2 c.normal < 0 then
    if c.cid ∈ solids then errOutcome x1 y1 solids
    else
      let leavingID := topSolid solids
      if leavingID < c.cid then
        let r := onHit x1 y1 x2 y2 c.normal leavingID c.cid
        let solids2 := if r.entering ≠ leavingID then List.insert r.entering solids
          else solids
        finishStep onStep x1 y1 r.x2 r.y2 solids2 r.reset true
      else
        finishStep onStep x1 y1 x2 y2 solids false false
  else if 0 < distnormal y1 y2 c.normal then
    if c.cid ∉ solids then errOutcome x1 y1 solids
    else
      if c.cid = topSolid solids then
        let r := onHit x1 y1 x2 y2 c.normal c.cid (secondSolid solids)
        let solids2 := if r.entering ≠ c.cid then solids.erase c.cid else solids
        finishStep onStep x1 y1 r.x2 r.y2 solids2 r.reset true
      else
        finishStep onStep x1 y1 x2 y2 solids false false
  else errOutcome x1 y1 solids

/-- Result of one CheckHit invocation (recursive calls included): the
returned Bool and the by-reference segment end. -/
structure SegRes where
  changed : Bool
  x2 : ℚ
  y2 : Vec6
  deriving DecidableEq

/-- Type of the recursive CheckHit call, abstracted as an oracle:
arguments x1 y1 x2 y2 iteration. -/
abbrev RecFn := ℚ → Vec6 → ℚ → Vec6 → ℕ → SegRes

/-- First cut time of the unresolved branch (particle.h line 697):
xnew = x1 + (x2 - x1)*c->s*(1 - 0.01*iteration). -/
def cutBefore (x1 x2 s : ℚ) (iter : ℕ) : ℚ :=
  x1 + (x2 - x1) * s * (1 - (iter : ℚ) / 100)

/-- Second cut time of the unresolved branch (particle.h line 710):
xnew = x1 + (x2 - x1)*c->s*(1 + 0.01*iteration). -/
def cutAfter (x1 x2 s : ℚ) (iter : ℕ) : ℚ :=
  x1 + (x2 - x1) * s * (1 + (iter : ℚ) / 100)

/-- Second cut and final recursion of the unresolved branch (particle.h
lines 710-724).  xb1, yb1 is the state of xbisect1/ybisect1 (possibly
modified by reference inside the first recursive call); xb2, yb2 the
state of xbisect2/ybisect2 left by the first phase.  The second cut is
taken only when xnew > xbisect1 && xnew < x2; on a changed verdict the
truncated endpoint is propagated; otherwise the last recursion covers the
remainder up to (x2, y2). -/
def bisectTail (rf : RecFn) (dense : ℚ → Vec6) (x1 x2 : ℚ) (y2 : Vec6)
    (s : ℚ) (iter : ℕ) (xb1 : ℚ) (yb1 : Vec6) (xb2 : ℚ) (yb2 : Vec6) : SegRes :=
  let xnew := cutAfter x1 x2 s iter
  if xb1 < xnew ∧ xnew < x2 then
    let r2 := rf xb1 yb1 xnew (dense xnew) (iter + 1)
    if r2.changed then r2
    else rf r2.x2 r2.y2 x2 y2 (iter + 1)
  else rf xb2 yb2 x2 y2 (iter + 1)

/-- Unresolved (bisection) branch of TParticle::CheckHit (particle.h
lines 687-724).  The first cut is taken only when xnew > x1 && xnew < x2,
with the endpoint interpolated from the stepper's dense output; a changed
verdict truncates the segment to the cut and propagates; recursive calls
receive iteration + 1. -/
def CheckHitBisect (rf : RecFn) (dense : ℚ → Vec6) (x1 : ℚ) (y1 : Vec6)
    (x2 : ℚ) (y2 : Vec6) (s : ℚ) (iter : ℕ) : SegRes :=
  let xnew := cutBefore x1 x2 s iter
  if x1 < xnew ∧ xnew < x2 then
    let r1 := rf x1 y1 xnew (dense xnew) (iter + 1)
    if r1.changed then r1
    else bisectTail rf dense x1 x2 y2 s iter r1.x2 r1.y2 xnew (dense xnew)
  else bisectTail rf dense x1 x2 y2 s iter x1 y1 x1 y1

/-- OnHit oracle that changes nothing: no reset, no truncation, entering
kept. -/
def onHitId : OnHitFn := fun _ _ x2 y2 _ _ e => ⟨false, x2, y2, e⟩

/-- OnStep oracle that changes nothing: no absorption, no truncation. -/
def onStepId : OnStepFn := fun _ _ x2 y2 _ => ⟨false, x2, y2⟩

/-- Recursion oracle whose every call reports a change, keeping the
segment end it was given. -/
def recChanged : RecFn := fun _ _ xe ye _ => ⟨true, xe, ye⟩

/-- Concrete state: at the origin moving with unit speed along x. -/
def yC2 : Vec6 := ⟨0, 0, 0, 1, 0, 0⟩

/-- Concrete dense output of an accelerating trajectory: the position
advances at average speed 2 although the start speed is 1. -/
def denseAccel : ℚ → Vec6 := fun t => ⟨2 * t, 0, 0, 1, 0, 0⟩

/-- Concrete dense output of uniform unit-speed motion along x. -/
def denseUnif : ℚ → Vec6 := fun t => ⟨t, 0, 0, 1, 0, 0⟩

/-- Concrete segment start used in collision scenarios. -/
def yEntryStart : Vec6 := ⟨1, 0, 0, 0, 0, 0⟩

/-- Concrete segment end: displacement (-1, 0, 0). -/
def yEntryEnd : Vec6 := ⟨0, 0, 0, 0, 0, 0⟩

/-- Concrete collision record with solid 3, normal (1, 0, 0). -/
def collEntry3 : TCollision := ⟨1/2, 3, (1, 0, 0)⟩

/-- Concrete current-solid set holding the default solid and solid 5. -/
def solids15 : List ℕ := [1, 5]

/-- Concrete current-solid set holding the default solid and solid 3. -/
def solids13 : List ℕ := [1, 3]

/-- Concrete ignore-interval table: every solid is transparent on (1, 3). -/
def ignC8 : ℕ → List (ℚ × ℚ) := fun _ => [(1, 3)]

/-- Concrete collision record with solid 7 at s = 1/2. -/
def collC8 : TCollision := ⟨1/2, 7, (1, 0, 0)⟩

/-! Shared helper lemmas. -/

/-- Helper: the initial value never exceeds the running maximum of the
Hmax fold. -/
theorem init_le_hmaxAfter (l : List ℚ) (b : ℚ) : b ≤ hmaxAfter b l := by
  induction l generalizing b with
  | nil => exact le_refl b
  | cons a t ih =>
    calc b ≤ max a b := le_max_right a b
    _ ≤ hmaxAfter (max a b) t := ih (max a b)
    _ = hmaxAfter b (a :: t) := rfl

/-- Helper: every sampled value is bounded by the running maximum of the
Hmax fold. -/
theorem mem_le_hmaxAfter (l : List ℚ) (b h : ℚ) : h ∈ l → h ≤ hmaxAfter b l := by
  induction l generalizing b with
  | nil => intro hm; cases hm
  | cons a t ih =>
    intro hm
    rcases List.mem_cons.mp hm with rfl | hmt
    · calc h ≤ max h b := le_max_left h b
      _ ≤ hmaxAfter (max h b) t := init_le_hmaxAfter t (max h b)
      _ = hmaxAfter b (h :: t) := rfl
    · exact ih (max a b) hmt

/-- Helper: the GetSolids fold never loses the default solid when no
collision record carries its ID. -/
theorem one_mem_getSolidsFold (records : List ℕ) (acc : List ℕ)
    (hacc : 1 ∈ acc) (hrec : ∀ r ∈ records, r ≠ 1) :
    1 ∈ records.foldl (fun acc i => if i ∈ acc then acc.erase i else acc ++ [i]) acc := by
  induction records generalizing acc with
  | nil => exact hacc
  | cons i t ih =>
    simp only [List.foldl_cons]
    apply ih
    · by_cases hmem : i ∈ acc
      · simp only [hmem, if_pos]
        exact (List.mem_erase_of_ne
          (fun he => hrec i (List.mem_cons_self i t) he.symm)).mpr hacc
      · simp only [hmem, if_neg, not_false_iff]
        exact List.mem_append_left _ hacc
    · exact fun r hr => hrec r (List.mem_cons_of_mem i hr)

/-! Claim theorems. -/

/-- C1 counterexample: in the localised branch of CheckHit, a valid entry
into solid 3 (distnormal < 0, solid 3 not yet in the current-solid set)
while the highest current solid is 5 — so the ID ordering does not admit
a reaction — neither calls OnHit nor errors out, and in particular does
NOT add the entered solid 3 to the current-solid set, contradicting the
claim that the crossing still updates the set when no reaction is
admitted. -/
theorem checkhit_nonadmitted_entry_keeps_solids_cex :
    distnormal yEntryStart yEntryEnd collEntry3.normal < 0 ∧
    collEntry3.cid ∉ solids15 ∧
    collEntry3.cid ≤ topSolid solids15 ∧
    (CheckHitLocalized onHitId onStepId 0 yEntryStart 1 yEntryEnd collEntry3 [] solids15).fate = 0 ∧
    (CheckHitLocalized onHitId onStepId 0 yEntryStart 1 yEntryEnd collEntry3 [] solids15).hitCalled = false ∧
    (CheckHitLocalized onHitId onStepId 0 yEntryStart 1 yEntryEnd collEntry3 [] solids15).solids = solids15 ∧
    collEntry3.cid ∉ (CheckHitLocalized onHitId onStepId 0 yEntryStart 1 yEntryEnd collEntry3 [] solids15).solids := by
  norm_num [CheckHitLocalized, twoSurfaces, distnormal, yEntryStart, yEntryEnd, collEntry3,
    solids15, topSolid, finishStep, onHitId, onStepId, errOutcome, secondSolid]

/-- C1 (amended): for every localised boundary crossing, OnHit is invoked
only when the ID ordering admits it (entry: the entering solid's ID
exceeds the highest ID of the current-solid set; exit: the leaving solid
is the highest-ID solid of the set); when the ordering does not admit a
reaction the crossing calls no OnHit and leaves the current-solid set
UNCHANGED (the entered solid is not added, the left solid is not
removed), falling through to the OnStep absorption check. -/
theorem checkhit_onhit_gating (onHit : OnHitFn) (onStep : OnStepFn) (x1 : ℚ)
    (y1 : Vec6) (x2 : ℚ) (y2 : Vec6) (c : TCollision) (rest : List TCollision)
    (solids : List ℕ) (hts : twoSurfaces c rest = false)
    (h : (distnormal y1 y2 c.normal < 0 ∧ c.cid ∉ solids ∧ c.cid ≤ topSolid solids) ∨
         (0 < distnormal y1 y2 c.normal ∧ c.cid ∈ solids ∧ c.cid ≠ topSolid solids)) :
    (CheckHitLocalized onHit onStep x1 y1 x2 y2 c rest solids).hitCalled = false ∧
    (CheckHitLocalized onHit onStep x1 y1 x2 y2 c rest solids).solids = solids := by
  have hts' : ¬ twoSurfaces c rest = true := by simp [hts]
  unfold CheckHitLocalized
  rcases h with ⟨hdn, hmem, hle⟩ | ⟨hdn, hmem, hne⟩
  · rw [if_neg hts', if_pos hdn, if_neg hmem, if_neg (not_lt.mpr hle)]
    simp [finishStep]
  · rw [if_neg hts', if_neg (by linarith : ¬ distnormal y1 y2 c.normal < 0),
      if_pos hdn, if_neg (by simp [hmem] : ¬ c.cid ∉ solids), if_neg hne]
    simp [finishStep]

/-- C1 witness: the gating theorem applied to the concrete non-admitted
entry of solid 3 over the set containing 1 and 5. -/
theorem checkhit_onhit_gating_witness :
    (CheckHitLocalized onHitId onStepId 0 yEntryStart 1 yEntryEnd collEntry3 [] solids15).hitCalled = false ∧
    (CheckHitLocalized onHitId onStepId 0 yEntryStart 1 yEntryEnd collEntry3 [] solids15).solids = solids15 :=
  checkhit_onhit_gating onHitId onStepId 0 yEntryStart 1 yEntryEnd collEntry3 [] solids15 rfl
    (Or.inl ⟨by norm_num [distnormal, yEntryStart, yEntryEnd, collEntry3], by decide, by decide⟩)

/-- C2 counterexample: with start speed 1 the integrator emits the
sub-interval of duration MAX_SAMPLE_DIST / 1; a dense output that covers
distance 2/100 in that time (an accelerating trajectory) makes the
emitted sub-interval's spatial length exceed MAX_SAMPLE_DIST, so the
claimed unconditional bound |y2 - y1| <= MAX_SAMPLE_DIST fails. -/
theorem subinterval_spatial_length_cex :
    (1 : ℚ) * 1 = speedSq yC2 ∧
    (nextSample 1 0 1 yC2 denseAccel).1 = 1/100 ∧
    MAX_SAMPLE_DIST * MAX_SAMPLE_DIST <
      posDistSq yC2 (nextSample 1 0 1 yC2 denseAccel).2 := by
  norm_num [speedSq, yC2, nextSample, MAX_SAMPLE_DIST, denseAccel, posDistSq]

/-- C2 (amended): every emitted sub-interval has time length at most
MAX_SAMPLE_DIST divided by the start speed v1 and ends no later than the
accepted step (the last sub-interval may be shorter); consequently its
spatial length is at most MAX_SAMPLE_DIST whenever the displacement over
the sub-interval does not exceed v1 times its duration (stated with
squared distances to stay in the rationals). -/
theorem subinterval_time_length_bound (v1 x1 xstep : ℚ) (y1 ystep : Vec6)
    (dense : ℚ → Vec6) (hv : 0 < v1) (hx : x1 < xstep)
    (hspeed : v1 * v1 = speedSq y1) :
    ((nextSample v1 x1 xstep ystep dense).1 - x1 ≤ MAX_SAMPLE_DIST / v1) ∧
    ((nextSample v1 x1 xstep ystep dense).1 ≤ xstep) ∧
    (posDistSq y1 (nextSample v1 x1 xstep ystep dense).2 ≤
        (v1 * ((nextSample v1 x1 xstep ystep dense).1 - x1)) *
          (v1 * ((nextSample v1 x1 xstep ystep dense).1 - x1)) →
      posDistSq y1 (nextSample v1 x1 xstep ystep dense).2 ≤
        MAX_SAMPLE_DIST * MAX_SAMPLE_DIST) := by
  have hmsd : (0:ℚ) < MAX_SAMPLE_DIST := by norm_num [MAX_SAMPLE_DIST]
  simp only [nextSample]
  by_cases hc : xstep ≤ x1 + MAX_SAMPLE_DIST / v1
  · rw [if_pos hc]
    refine ⟨by linarith, le_refl xstep, fun hd => ?_⟩
    have hdt : 0 ≤ xstep - x1 := by linarith
    have h1 : v1 * (xstep - x1) ≤ MAX_SAMPLE_DIST := by
      rw [mul_comm]
      exact (le_div_iff₀ hv).mp (by linarith)
    calc posDistSq y1 ystep ≤ (v1 * (xstep - x1)) * (v1 * (xstep - x1)) := hd
      _ ≤ MAX_SAMPLE_DIST * MAX_SAMPLE_DIST :=
          mul_self_le_mul_self (mul_nonneg hv.le hdt) h1
  · rw [if_neg hc]
    push_neg at hc
    refine ⟨le_of_eq (by ring), by linarith, fun hd => ?_⟩
    have h1 : v1 * (x1 + MAX_SAMPLE_DIST / v1 - x1) = MAX_SAMPLE_DIST := by
      field_simp
      ring
    calc posDistSq y1 (dense (x1 + MAX_SAMPLE_DIST / v1))
        ≤ (v1 * (x1 + MAX_SAMPLE_DIST / v1 - x1)) * (v1 * (x1 + MAX_SAMPLE_DIST / v1 - x1)) := hd
      _ = MAX_SAMPLE_DIST * MAX_SAMPLE_DIST := by rw [h1]

/-- C2 witness: the bound theorem applied to uniform unit-speed motion
over the unit step. -/
theorem subinterval_time_length_bound_witness :
    ((nextSample 1 0 1 yC2 denseUnif).1 - 0 ≤ MAX_SAMPLE_DIST / 1) ∧
    ((nextSample 1 0 1 yC2 denseUnif).1 ≤ 1) ∧
    (posDistSq yC2 (nextSample 1 0 1 yC2 denseUnif).2 ≤
        (1 * ((nextSample 1 0 1 yC2 denseUnif).1 - 0)) *
          (1 * ((nextSample 1 0 1 yC2 denseUnif).1 - 0)) →
      posDistSq yC2 (nextSample 1 0 1 yC2 denseUnif).2 ≤
        MAX_SAMPLE_DIST * MAX_SAMPLE_DIST) :=
  subinterval_time_length_bound 1 0 1 yC2 yC2 denseUnif (by norm_num) (by norm_num)
    (by norm_num [speedSq, yC2])

/-- C3 counterexample: a segment with two collision records whose first
record meets both tolerance conditions (tol = 1, s = 1/2, distnormal = 1)
at iteration 1 is NOT treated as localised by the source criterion —
because of its colls.size() == 1 conjunct — although the spec criterion,
which has no record-count condition, classifies it as localised. -/
theorem localized_criterion_record_count_cex :
    isLocalized 1 2 (1/2) 1 1 = false ∧ isLocalizedSpec 1 (1/2) 1 1 = true := by
  constructor
  · simp [isLocalized]
  · simp [isLocalizedSpec]
    norm_num

/-- C3 (amended): the crossing is treated as localised exactly when the
segment carries exactly ONE collision record and both
c.s*|distnormal| < REFLECT_TOLERANCE and (1 - c.s)*|distnormal| <
REFLECT_TOLERANCE hold, or the iteration counter exceeds 99; the
single-record condition IS part of the criterion. -/
theorem localized_criterion_characterization (tol : ℚ) (nColls : ℕ)
    (s dn : ℚ) (iter : ℕ) :
    isLocalized tol nColls s dn iter = true ↔
      ((nColls = 1 ∧ s * |dn| < tol ∧ (1 - s) * |dn| < tol) ∨ 99 < iter) := by
  simp [isLocalized, and_assoc]

/-- C4: for every localised crossing that enters a solid already in the
current-solid set, or leaves a solid that is not in the set, or crosses
with displacement perpendicular to the surface normal (distnormal = 0),
CheckHit sets the fate to the numerical error ID -3, returns changed, and
resets the segment endpoint to its start (x2 := x1, y2 := y1), leaving
the particle state — current-solid set included — at the pre-crossing
point. -/
theorem checkhit_consistency_errors_reset_segment (onHit : OnHitFn)
    (onStep : OnStepFn) (x1 : ℚ) (y1 : Vec6) (x2 : ℚ) (y2 : Vec6)
    (c : TCollision) (rest : List TCollision) (solids : List ℕ)
    (h : (distnormal y1 y2 c.normal < 0 ∧ c.cid ∈ solids) ∨
         (0 < distnormal y1 y2 c.normal ∧ c.cid ∉ solids) ∨
         distnormal y1 y2 c.normal = 0) :
    (CheckHitLocalized onHit onStep x1 y1 x2 y2 c rest solids).fate = ID_NRERROR ∧
    (CheckHitLocalized onHit onStep x1 y1 x2 y2 c rest solids).ret = true ∧
    (CheckHitLocalized onHit onStep x1 y1 x2 y2 c rest solids).x2 = x1 ∧
    (CheckHitLocalized onHit onStep x1 y1 x2 y2 c rest solids).y2 = y1 ∧
    (CheckHitLocalized onHit onStep x1 y1 x2 y2 c rest solids).solids = solids := by
  have he : CheckHitLocalized onHit onStep x1 y1 x2 y2 c rest solids = errOutcome x1 y1 solids := by
    by_cases hts : twoSurfaces c rest = true
    · unfold CheckHitLocalized
      rw [if_pos hts]
    · unfold CheckHitLocalized
      rw [if_neg hts]
      rcases h with ⟨hdn, hmem⟩ | ⟨hdn, hmem⟩ | hdn
      · rw [if_pos hdn, if_pos hmem]
      · rw [if_neg (by linarith : ¬ distnormal y1 y2 c.normal < 0), if_pos hdn, if_pos hmem]
      · rw [if_neg (by linarith : ¬ distnormal y1 y2 c.normal < 0),
          if_neg (by linarith : ¬ 0 < distnormal y1 y2 c.normal)]
  rw [he]
  exact ⟨rfl, rfl, rfl, rfl, rfl⟩

/-- C4 witness: entering solid 3 although 3 is already in the
current-solid set triggers the error reset. -/
theorem checkhit_consistency_errors_witness :
    (CheckHitLocalized onHitId onStepId 0 yEntryStart 1 yEntryEnd collEntry3 [] solids13).fate = ID_NRERROR ∧
    (CheckHitLocalized onHitId onStepId 0 yEntryStart 1 yEntryEnd collEntry3 [] solids13).ret = true ∧
    (CheckHitLocalized onHitId onStepId 0 yEntryStart 1 yEntryEnd collEntry3 [] solids13).x2 = 0 ∧
    (CheckHitLocalized onHitId onStepId 0 yEntryStart 1 yEntryEnd collEntry3 [] solids13).y2 = yEntryStart ∧
    (CheckHitLocalized onHitId onStepId 0 yEntryStart 1 yEntryEnd collEntry3 [] solids13).solids = solids13 :=
  checkhit_consistency_errors_reset_segment onHitId onStepId 0 yEntryStart 1 yEntryEnd
    collEntry3 [] solids13
    (Or.inl ⟨by norm_num [distnormal, yEntryStart, yEntryEnd, collEntry3], by decide⟩)

/-- C5: in the unresolved (bisection) case with first record at s and
iteration counter iter, the cut times are exactly
t_cut1 = x1 + (x2 - x1)*s*(1 - 0.01*iter) and
t_cut2 = x1 + (x2 - x1)*s*(1 + 0.01*iter); the resolver recurses with
iteration + 1 on a cut sub-interval only when the cut lies strictly
inside the interval and strictly after the previous cut, endpoint states
at cut times come from the stepper's dense output, and a changed verdict
of any recursive call propagates the truncated segment endpoint to the
caller (quantified over every recursion oracle rf and dense output). -/
theorem checkhit_bisection_cuts (rf : RecFn) (dense : ℚ → Vec6) (x1 : ℚ)
    (y1 : Vec6) (x2 : ℚ) (y2 : Vec6) (s : ℚ) (iter : ℕ) :
    cutBefore x1 x2 s iter = x1 + (x2 - x1) * s * (1 - (iter : ℚ) / 100) ∧
    cutAfter x1 x2 s iter = x1 + (x2 - x1) * s * (1 + (iter : ℚ) / 100) ∧
    (x1 < cutBefore x1 x2 s iter → cutBefore x1 x2 s iter < x2 →
      (rf x1 y1 (cutBefore x1 x2 s iter) (dense (cutBefore x1 x2 s iter)) (iter + 1)).changed = true →
      CheckHitBisect rf dense x1 y1 x2 y2 s iter
        = rf x1 y1 (cutBefore x1 x2 s iter) (dense (cutBefore x1 x2 s iter)) (iter + 1)) ∧
    (¬ (x1 < cutBefore x1 x2 s iter ∧ cutBefore x1 x2 s iter < x2) →
      x1 < cutAfter x1 x2 s iter → cutAfter x1 x2 s iter < x2 →
      (rf x1 y1 (cutAfter x1 x2 s iter) (dense (cutAfter x1 x2 s iter)) (iter + 1)).changed = true →
      CheckHitBisect rf dense x1 y1 x2 y2 s iter
        = rf x1 y1 (cutAfter x1 x2 s iter) (dense (cutAfter x1 x2 s iter)) (iter + 1)) ∧
    (¬ (x1 < cutBefore x1 x2 s iter ∧ cutBefore x1 x2 s iter < x2) →
      ¬ (x1 < cutAfter x1 x2 s iter ∧ cutAfter x1 x2 s iter < x2) →
      CheckHitBisect rf dense x1 y1 x2 y2 s iter = rf x1 y1 x2 y2 (iter + 1)) ∧
    (x1 < cutBefore x1 x2 s iter → cutBefore x1 x2 s iter < x2 →
      rf x1 y1 (cutBefore x1 x2 s iter) (dense (cutBefore x1 x2 s iter)) (iter + 1)
        = ⟨false, cutBefore x1 x2 s iter, dense (cutBefore x1 x2 s iter)⟩ →
      cutBefore x1 x2 s iter < cutAfter x1 x2 s iter → cutAfter x1 x2 s iter < x2 →
      (rf (cutBefore x1 x2 s iter) (dense (cutBefore x1 x2 s iter)) (cutAfter x1 x2 s iter)
          (dense (cutAfter x1 x2 s iter)) (iter + 1)).changed = true →
      CheckHitBisect rf dense x1 y1 x2 y2 s iter
        = rf (cutBefore x1 x2 s iter) (dense (cutBefore x1 x2 s iter)) (cutAfter x1 x2 s iter)
            (dense (cutAfter x1 x2 s iter)) (iter + 1)) := by
  refine ⟨rfl, rfl, fun hg1 hg2 hch => ?_, fun hng hg1 hg2 hch => ?_,
    fun hng1 hng2 => ?_, fun hg1 hg2 hr1 hg3 hg4 hch => ?_⟩
  · simp only [CheckHitBisect]
    rw [if_pos (And.intro hg1 hg2), if_pos hch]
  · simp only [CheckHitBisect]
    rw [if_neg hng]
    simp only [bisectTail]
    rw [if_pos (And.intro hg1 hg2), if_pos hch]
  · simp only [CheckHitBisect]
    rw [if_neg hng1]
    simp only [bisectTail]
    rw [if_neg hng2]
  · simp only [CheckHitBisect]
    rw [if_pos (And.intro hg1 hg2), hr1]
    simp only [bisectTail]
    rw [if_neg (by simp :
      ¬ (SegRes.mk false (cutBefore x1 x2 s iter) (dense (cutBefore x1 x2 s iter))).changed = true)]
    rw [if_pos (And.intro hg3 hg4), if_pos hch]

/-- C5 witness: with an always-changed recursion oracle and the first cut
at 99/200 inside (0, 1), the bisector propagates that call's result. -/
theorem checkhit_bisection_cuts_witness :
    CheckHitBisect recChanged denseUnif 0 yC2 1 yC2 (1/2) 1
      = recChanged 0 yC2 (cutBefore 0 1 (1/2) 1) (denseUnif (cutBefore 0 1 (1/2) 1)) (1 + 1) :=
  (checkhit_bisection_cuts recChanged denseUnif 0 yC2 1 yC2 (1/2) 1).2.2.1
    (by norm_num [cutBefore]) (by norm_num [cutBefore]) rfl

/-- C6: Hmax is monotonically non-decreasing over the integration — it
starts at the total start energy Hstart, appending one more sampled
sub-interval never decreases it, and it dominates the start energy and
every sampled total energy H(t). -/
theorem hmax_monotone_dominates_samples (hstart : ℚ) (hs : List ℚ) :
    (∀ (l : List ℚ) (h : ℚ), hmaxAfter hstart l ≤ hmaxAfter hstart (l ++ [h])) ∧
    hstart ≤ hmaxAfter hstart hs ∧
    ∀ h ∈ hs, h ≤ hmaxAfter hstart hs := by
  refine ⟨fun l h => ?_, init_le_hmaxAfter hs hstart,
    fun h hm => mem_le_hmaxAfter hs hstart h hm⟩
  have happ : hmaxAfter hstart (l ++ [h]) = max h (hmaxAfter hstart l) := by
    simp [hmaxAfter, List.foldl_append]
  rw [happ]
  exact le_max_right h (hmaxAfter hstart l)

/-- C6 witness: with start energy 0 and sampled energies 1 and 2, Hmax
dominates the sample 2 and the start energy. -/
theorem hmax_monotone_dominates_samples_witness :
    (2:ℚ) ≤ hmaxAfter 0 [1, 2] ∧ (0:ℚ) ≤ hmaxAfter 0 [1, 2] :=
  ⟨(hmax_monotone_dominates_samples 0 [1, 2]).2.2 2 (by norm_num),
   (hmax_monotone_dominates_samples 0 [1, 2]).2.1⟩

/-- C7: the default solid (ID 1) is always in the current-solid set —
the containment query seeds its result with the default solid and
toggling by ray-crossing parity never removes it as long as no collision
record carries ID 1 (the default solid has no mesh), and the localised
branch of the collision resolver preserves membership of ID 1 whenever
the hit record's ID is not 1; in particular the set stays non-empty. -/
theorem default_solid_always_present :
    (∀ records : List ℕ, (∀ r ∈ records, r ≠ 1) → 1 ∈ GetSolids records) ∧
    (∀ (onHit : OnHitFn) (onStep : OnStepFn) (x1 : ℚ) (y1 : Vec6) (x2 : ℚ) (y2 : Vec6)
       (c : TCollision) (rest : List TCollision) (solids : List ℕ),
       1 ∈ solids → c.cid ≠ 1 →
       1 ∈ (CheckHitLocalized onHit onStep x1 y1 x2 y2 c rest solids).solids) := by
  constructor
  · intro records hrec
    exact one_mem_getSolidsFold records [1] (List.mem_singleton_self 1) hrec
  · intro onHit onStep x1 y1 x2 y2 c rest solids hmem hne
    unfold CheckHitLocalized
    split_ifs <;>
      simp_all [errOutcome, finishStep, List.mem_insert_iff] <;>
      split_ifs <;>
      simp_all [List.mem_insert_iff, List.mem_erase_of_ne (Ne.symm hne)]

/-- C7 witness: the containment query on records 4 and 6 keeps the
default solid, and so does the concrete localised crossing with solid 3. -/
theorem default_solid_always_present_witness :
    1 ∈ GetSolids [4, 6] ∧
    1 ∈ (CheckHitLocalized onHitId onStepId 0 yEntryStart 1 yEntryEnd collEntry3 [] solids15).solids :=
  ⟨default_solid_always_present.1 [4, 6] (by decide),
   default_solid_always_present.2 onHitId onStepId 0 yEntryStart 1 yEntryEnd collEntry3 []
     solids15 (by decide) (by decide)⟩

/-- C8: every record produced by the geometry segment test is tagged
ignored exactly when the interpolated hit time t = x1 + (x2 - x1)*s lies
in a half-open ignore interval (a <= t and t < b) of the hit solid, and
the test returns true exactly when the record set is non-empty. -/
theorem getcollisions_ignore_tagging (x1 x2 : ℚ) (ignoreOf : ℕ → List (ℚ × ℚ))
    (cs : List TCollision) :
    (∀ c b, (c, b) ∈ (GetCollisions x1 x2 ignoreOf cs).1 →
       (b = true ↔ ∃ p ∈ ignoreOf c.cid,
          p.1 ≤ x1 + (x2 - x1) * c.s ∧ x1 + (x2 - x1) * c.s < p.2)) ∧
    ((GetCollisions x1 x2 ignoreOf cs).2 = true ↔
      (GetCollisions x1 x2 ignoreOf cs).1 ≠ []) := by
  constructor
  · intro c b hmem
    simp only [GetCollisions, List.mem_map] at hmem
    obtain ⟨c', hc', heq⟩ := hmem
    injection heq with h1 h2
    subst h1
    subst h2
    simp [List.any_eq_true]
  · simp [GetCollisions]

/-- C8 witness: solid 7 hit at s = 1/2 of the segment from time 0 to 2
gives hit time 1, inside the half-open ignore interval from 1 to 3, so
the record is tagged ignored and the test returns true. -/
theorem getcollisions_ignore_tagging_witness :
    (true = true ↔ ∃ p ∈ ignC8 collC8.cid,
        p.1 ≤ 0 + (2 - 0) * collC8.s ∧ 0 + (2 - 0) * collC8.s < p.2) ∧
    ((GetCollisions 0 2 ignC8 [collC8]).2 = true ↔
      (GetCollisions 0 2 ignC8 [collC8]).1 ≠ []) :=
  ⟨(getcollisions_ignore_tagging 0 2 ignC8 [collC8]).1 collC8 true
      (by norm_num [GetCollisions, ignC8, collC8]),
   (getcollisions_ignore_tagging 0 2 ignC8 [collC8]).2⟩

/-- C9: the duplicate-ID check of the TGeometry constructor uses
std::unique on the UNSORTED solids list and therefore only detects
adjacent equal IDs: the ID sequence 2, 3, 2 contains a duplicate ID yet
the check does not fire, so construction does not abort — contradicting
the claim (and the source's own comment and error message) that any two
solids with the same ID abort the run. -/
theorem duplicate_id_check_misses_nonadjacent :
    adjacentDupCheck [2, 3, 2] = false ∧ ¬ ([2, 3, 2] : List ℕ).Nodup := by
  decide

/-- C10: reading a material fails with the mutual-exclusion error exactly
when the diffuse-reflection probability is non-zero together with a
non-zero RMS roughness or correlation length; it fails with a parse error
when any of the eight numeric fields cannot be read; and every accepted
material has at most one reflection model configured. -/
theorem material_read_mutual_exclusion :
    (∀ a b c d e f g h : ℚ,
      (readMaterial (some a) (some b) (some c) (some d) (some e) (some f) (some g) (some h)
          = Except.error MatError.bothModels ↔ c ≠ 0 ∧ (e ≠ 0 ∨ f ≠ 0)) ∧
      (readMaterial (some a) (some b) (some c) (some d) (some e) (some f) (some g) (some h)
          = Except.ok ⟨a, b, c, d, e, f, g, h⟩ ↔ ¬ (c ≠ 0 ∧ (e ≠ 0 ∨ f ≠ 0)))) ∧
    (∀ fr fi dp sp rms cl lpb mfp : Option ℚ,
      (fr = none ∨ fi = none ∨ dp = none ∨ sp = none ∨ rms = none ∨ cl = none ∨
        lpb = none ∨ mfp = none) →
      readMaterial fr fi dp sp rms cl lpb mfp = Except.error MatError.parseFail) ∧
    (∀ (fr fi dp sp rms cl lpb mfp : Option ℚ) (m : material),
      readMaterial fr fi dp sp rms cl lpb mfp = Except.ok m →
      ¬ (m.DiffProb ≠ 0 ∧ (m.RMSRoughness ≠ 0 ∨ m.CorrelLength ≠ 0))) := by
  refine ⟨fun a b c d e f g h => ⟨?_, ?_⟩, fun fr fi dp sp rms cl lpb mfp hn => ?_, ?_⟩
  · by_cases hc : c ≠ 0 ∧ (e ≠ 0 ∨ f ≠ 0) <;> simp [readMaterial, hc]
  · by_cases hc : c ≠ 0 ∧ (e ≠ 0 ∨ f ≠ 0) <;> simp [readMaterial, hc]
  · cases fr <;> cases fi <;> cases dp <;> cases sp <;> cases rms <;> cases cl <;>
      cases lpb <;> cases mfp <;> simp_all [readMaterial]
  · intro fr fi dp sp rms cl lpb mfp m hok
    cases fr <;> cases fi <;> cases dp <;> cases sp <;> cases rms <;> cases cl <;>
      cases lpb <;> cases mfp <;> simp only [readMaterial] at hok
    all_goals try exact Except.noConfusion hok
    split_ifs at hok with hc
    injection hok with hm
    subst hm
    simpa using hc

/-- C10 witness: a material whose first field fails to parse is rejected
with the parse error. -/
theorem material_read_mutual_exclusion_witness :
    readMaterial none (some 0) (some 0) (some 0) (some 0) (some 0) (some 0) (some 0)
      = Except.error MatError.parseFail :=
  material_read_mutual_exclusion.2.1 none (some 0) (some 0) (some 0) (some 0) (some 0)
    (some 0) (some 0) (Or.inl rfl)
